import Mathlib

/-!
Verification development for the video-evaluation service
(duplicate detection, tiered feature store, budget guardrails,
evaluation orchestrator and retention cleaner).

The definitions below are a shallow embedding of the Python sources:

* `app/infrastructure/cv/phash.py`       → `hamming`, `similarity_percent`
* `app/infrastructure/cv/sequence.py`    → `sequence_match_percent`
* `app/api/endpoints.py` (dup_check)     → `duration_ratio`
* `app/infrastructure/redisdb/rate_limit.py` → `BudgetGuardrails`
* `app/infrastructure/bitpack.py`        → `pack_phash64`, `pack_bool_bits`
* `app/infrastructure/pg/dao.py`         → `pg_save_video_features`, retention DAO
* `app/application/services/retention_cleanup.py` → `RetentionCleaner.run_once`
* `app/application/services/evaluate_service.py`  → `EvaluateService.evaluate`

Python floats are modelled as rationals (`ℚ`); Python's `round(x, n)`
(round-half-to-even) is modelled exactly by `pyRound2` / `pyRound4`.
External I/O (Redis, Postgres, the downloader, the VLM summarizer, ASR and
the alignment judge) is modelled as oracle functions collected in `Env`, and
evaluation additionally produces a trace of the store writes and external
model calls it performs (`Eff`).
-/

namespace VideoEval

/-- Round-half-to-even of a rational to an integer (Python's `round(x)`). -/
def rhe (x : ℚ) : ℤ :=
  let f := ⌊x⌋
  let frac := x - (f : ℚ)
  if frac < 1/2 then f
  else if frac > 1/2 then f + 1
  else if f % 2 = 0 then f else f + 1

/-- Python's `round(x, 2)` on exactly-represented values. -/
def pyRound2 (x : ℚ) : ℚ := (rhe (x * 100) : ℚ) / 100

/-- Python's `round(x, 4)` on exactly-represented values. -/
def pyRound4 (x : ℚ) : ℚ := (rhe (x * 10000) : ℚ) / 10000

/-- `_hamming` from `phash.py`: number of positions where two bit vectors
differ (`np.count_nonzero(a != b)`). -/
def hamming (a b : List Bool) : ℕ :=
  (List.zipWith (fun x y => x != y) a b).count true

/-- `similarity_percent` from `phash.py`.  `none` models a `None`
fingerprint (decode failure).  If the lengths differ both vectors are first
truncated to the shorter length; the result is
`round(100 * (1 - dist/len), 2)`. -/
def similarity_percent (fp1 fp2 : Option (List Bool)) : ℚ :=
  match fp1, fp2 with
  | none, _ => 0
  | _, none => 0
  | some a, some b =>
    let n := min a.length b.length
    let a' := if a.length ≠ b.length then a.take n else a
    let b' := if a.length ≠ b.length then b.take n else b
    pyRound2 (100 * (1 - (hamming a' b' : ℚ) / (a'.length : ℚ)))

/-- Best (minimum) Hamming distance of `hA` against `seqB` over the index
window `[start, stop)`, starting from 65 as in `sequence_match_percent`. -/
def bestWindowDist (hA : List Bool) (seqB : List (List Bool)) (start stop : ℕ) : ℕ :=
  (List.range' start (stop - start)).foldl
    (fun best j =>
      match seqB.get? j with
      | some hB => if hamming hA hB < best then hamming hA hB else best
      | none => best)
    65

/-- `sequence_match_percent` from `sequence.py`: percentage of frames of
`seqA` whose best match in `seqB`, searched within `±window` positions,
stays within `bit_tolerance` differing bits.  Returns 0 if either sequence
is empty. -/
def sequence_match_percent (seqA seqB : List (List Bool))
    (bit_tolerance : ℕ) (window : ℕ) : ℚ :=
  if seqA.isEmpty ∨ seqB.isEmpty then 0
  else
    let nMatched :=
      (List.range seqA.length).countP (fun i =>
        match seqA.get? i with
        | some hA =>
          let start := i - window
          let stop := min seqB.length (i + window + 1)
          decide (bestWindowDist hA seqB start stop ≤ bit_tolerance)
        | none => false)
    pyRound2 (100 * (nMatched : ℚ) / (seqA.length : ℚ))

/-- `duration_ratio` as computed in `dup_check` (`app/api/endpoints.py`):
`round(abs(d_base - d_cand) / max(d_base, d_cand or 1.0), 4)`.
Note the divisor is `max(d_base, d_cand or 1.0)` — Python's `or` replaces
`d_cand` by `1.0` only when `d_cand` is zero. -/
def duration_ratio (d_base d_cand : ℚ) : ℚ :=
  pyRound4 (|d_base - d_cand| / max d_base (if d_cand = 0 then 1 else d_cand))

/-- The formula the specification gives for `DurationRatio`:
`|a − b| / max(a, b, 1)` (stated without rounding). -/
def spec_duration_ratio (a b : ℚ) : ℚ :=
  |a - b| / max (max a b) 1

/-! ## Budget guardrails (`app/infrastructure/redisdb/rate_limit.py`) -/

/-- `BudgetAction` literal from `rate_limit.py` (`"deny"` is reserved and
never returned). -/
inductive BudgetAction
  | allow
  | degrade
  | deny
deriving DecidableEq, Repr

/-- Constructor arguments of `BudgetGuardrails`. -/
structure BudgetGuardrails where
  usd_day_cap : ℚ
  max_llm_calls : ℚ
  max_emb_calls : ℚ
deriving DecidableEq, Repr

/-- The per-campaign per-day counters read by `snapshot()` (missing fields
read as 0). -/
structure BudgetSnapshot where
  usd : ℚ
  llm : ℚ
  emb : ℚ
deriving DecidableEq, Repr

/-- `BudgetGuardrails.decide`: degrade as soon as one projected counter
exceeds its cap, otherwise allow.  Read-only on the counters. -/
def BudgetGuardrails.decide (g : BudgetGuardrails) (snap : BudgetSnapshot)
    (est_usd : ℚ) (need_llm need_emb : ℚ) : BudgetAction :=
  if snap.usd + est_usd > g.usd_day_cap then .degrade
  else if snap.llm + need_llm > g.max_llm_calls then .degrade
  else if snap.emb + need_emb > g.max_emb_calls then .degrade
  else .allow

/-- State-passing form of `decide` over a counter store: `decide` only calls
`snapshot()` (a read), so the store component is returned unchanged. -/
def BudgetGuardrails.decideSt (g : BudgetGuardrails)
    (store : String → BudgetSnapshot) (campaign_id : String)
    (est_usd : ℚ) (need_llm need_emb : ℚ) :
    BudgetAction × (String → BudgetSnapshot) :=
  (g.decide (store campaign_id) est_usd need_llm need_emb, store)

/-! ## Bit packing (`app/infrastructure/bitpack.py`) -/

/-- Big-endian value of up to 8 bits (one byte of `np.packbits`). -/
def byteOfBits (bs : List Bool) : ℕ :=
  bs.foldl (fun acc b => acc * 2 + (if b then 1 else 0)) 0

/-- `np.packbits(_, bitorder="big")`: chunk into groups of 8 (the last
group zero-padded on the right) and emit one byte per group. -/
def packBits : List Bool → List ℕ
  | [] => []
  | b :: rest =>
    let chunk := (b :: rest).take 8
    byteOfBits (chunk ++ List.replicate (8 - chunk.length) false) :: packBits (rest.drop 7)
termination_by l => l.length
decreasing_by
  simp only [List.length_cons, List.length_drop]
  omega

/-- `pack_phash64`: a (64,) bit vector packs to 8 bytes. -/
def pack_phash64 (bits : List Bool) : List ℕ := packBits bits

/-- `pack_bool_bits`: a (rows, cols) bool matrix flattens row-major and
packs. -/
def pack_bool_bits (mat : List (List Bool)) : List ℕ := packBits mat.flatten

/-! ## Durable tier (`app/infrastructure/pg/dao.py`) -/

/-- One row of the `video_features` table (fingerprints stored packed,
as in the persisted layout). -/
structure PgRow where
  video_id : String
  campaign_id : String
  url : String
  phash64 : List ℕ
  seq_sig : List ℕ
  seq_rows : ℕ
  seq_cols : ℕ
  duration_s : ℚ
deriving DecidableEq, Repr

/-- `pg_save_video_features`: `INSERT ... ON CONFLICT (url) DO NOTHING`.
If a row with this `url` already exists the table is unchanged (never an
update); otherwise the new row is inserted. -/
def pg_save_video_features (table : List PgRow)
    (video_id campaign_id url : String)
    (phash64_bits : List Bool) (seq_bits : List (List Bool))
    (duration_s : ℚ) : List PgRow :=
  if table.any (fun r => r.url == url) then table
  else
    table ++ [{ video_id := video_id, campaign_id := campaign_id, url := url,
                phash64 := pack_phash64 phash64_bits,
                seq_sig := pack_bool_bits seq_bits,
                seq_rows := seq_bits.length,
                seq_cols := (seq_bits.headD []).length,
                duration_s := duration_s }]

/-- One row of `campaign_retention`; `end_date` is a day number. -/
structure RetRow where
  campaign_id : String
  end_date : ℤ
deriving DecidableEq, Repr

/-- `pg_expired_campaign_ids`: campaign ids whose `end_date <= as_of`. -/
def pg_expired_campaign_ids (as_of : ℤ) (retention : List RetRow) : List String :=
  (retention.filter (fun r => decide (r.end_date ≤ as_of))).map (fun r => r.campaign_id)

/-- `pg_delete_videos_by_campaign`: drops the campaign's rows and returns
the deleted `video_id`s (`DELETE ... RETURNING video_id`). -/
def pg_delete_videos_by_campaign (campaign_id : String)
    (features : List PgRow) : List PgRow × List String :=
  (features.filter (fun r => r.campaign_id != campaign_id),
   (features.filter (fun r => r.campaign_id == campaign_id)).map (fun r => r.video_id))

/-- `pg_delete_campaign_retention`: removes the campaign's retention row. -/
def pg_delete_campaign_retention (campaign_id : String)
    (retention : List RetRow) : List RetRow :=
  retention.filter (fun r => r.campaign_id != campaign_id)

/-! ## Retention cleaner
(`app/application/services/retention_cleanup.py`) -/

/-- Durable-tier plus filesystem state touched by `RetentionCleaner`:
`keyframes` is the set of `video_id`s with a cached keyframe directory. -/
structure CleanerState where
  features : List PgRow
  retention : List RetRow
  keyframes : List String
deriving DecidableEq, Repr

/-- Body of the per-campaign loop in `RetentionCleaner._run_once`:
(1) delete the campaign's durable rows collecting video ids, (2) remove
each id's keyframe directory, (3) delete the retention row. -/
def cleanupCampaign (st : CleanerState) (cid : String) : CleanerState :=
  let del := pg_delete_videos_by_campaign cid st.features
  { features := del.1,
    retention := pg_delete_campaign_retention cid st.retention,
    keyframes := st.keyframes.filter (fun v => !(del.2.contains v)) }

/-- `RetentionCleaner._run_once`: compute today's expired campaigns and
clean each in turn (returning immediately when none is expired). -/
def run_once (today : ℤ) (st : CleanerState) : CleanerState :=
  let expired := pg_expired_campaign_ids today st.retention
  if expired.isEmpty then st
  else expired.foldl cleanupCampaign st

/-! ## Evaluation orchestrator
(`app/application/services/evaluate_service.py`) -/

/-- The `Settings` fields the orchestrator reads (defaults from
`app/infrastructure/settings.py`). -/
structure Settings where
  HASH_DUP_THRESHOLD : ℚ := 95
  SEQ_DUP_THRESHOLD : ℚ := 85
  USD_DAY_CAP : ℚ := 5
  MAX_LLM_CALLS : ℚ := 50
  MAX_EMB_CALLS : ℚ := 200
  BUDGET_GUARDRAILS_ENABLED : Bool := false
  PG_ENABLED : Bool := false
  AUDIO_ASR_ENABLED : Bool := true

/-- A cached feature record as returned by `get_features_by_url` /
`pg_get_by_url` (fields `video_id, url, phash64, seq_sig, duration_s`). -/
structure FeatureRec where
  video_id : String
  url : String
  phash64 : List Bool
  seq_sig : List (List Bool)
  duration_s : ℚ
deriving DecidableEq, Repr

/-- `AlignmentResult` response schema (`aproved` sic). -/
structure AlignmentResult where
  aproved : Bool
  match_percent : ℚ
  reasons : String
deriving DecidableEq, Repr

/-- The `cost` dict of `EvaluateResponse`. -/
structure Cost where
  llm_calls : ℕ
  embedding_calls : ℕ
  transcription_seconds : ℚ
  degraded_path : Bool
deriving DecidableEq, Repr

/-- `duplicate_reason` literals of the response schema. -/
inductive DupReason
  | URL
  | HASH
  | SEQ
  | AUDIO
  | SEMANTIC
deriving DecidableEq, Repr

/-- `EvaluateResponse` schema. -/
structure EvaluateResponse where
  duplicated : Bool
  duplicate_reason : Option DupReason
  duplicate_candidate_url : Option String
  alignment : Option AlignmentResult
  cost : Cost
deriving DecidableEq, Repr

/-- `EvaluateRequest` fields read by `EvaluateService.evaluate`
(`end_date` is only consumed by the campaign router). -/
structure EvaluateRequest where
  campaign_id : String
  video_url : String
  candidates : List String
  descripcion : String
deriving DecidableEq, Repr

/-- Externally observable side effects of one `evaluate` call: feature
writes to either store tier, external model calls, and budget commits. -/
inductive Eff
  | redisRepopulate (campaign_id url : String)
  | summarize
  | judge
  | budgetCommit (campaign_id : String)
  | redisPersist (campaign_id url : String)
  | pgPersist (url : String)
deriving DecidableEq, Repr

/-- Oracles for the collaborators `evaluate` calls: Redis and Postgres
reads, the downloader, fingerprinting of a downloaded file, keyframe and
transcript extraction, the VLM summarizer, the alignment judge, and the
budget counters.  `extract_transcript` returns `none` when WAV extraction
fails (the previous transcript is kept) and `some t?` when ASR ran with
result `t?`. -/
structure Env where
  get_features_by_url : String → String → Option FeatureRec
  recent_candidates : String → List FeatureRec
  pg_get_by_url : String → Option FeatureRec
  descargar_video : String → Option String
  video_fingerprint : String → Option (List Bool)
  frame_hash_sequence : String → List (List Bool)
  uniform_keyframes : String → List String
  extract_transcript : String → Option (Option String)
  analyze_frames_free_narrative : List String → Option String → Option String
  comparar_descripcion_con_resumen_ia : String → String → ℕ → Option String
  parse_judge : String → Option AlignmentResult
  budget : String → BudgetSnapshot
  get_duration_s : String → ℚ

/-- The zero-cost dict returned with every duplicate verdict. -/
def zeroCost : Cost := ⟨0, 0, 0, false⟩

/-- An `EvaluateResponse` flagging a duplicate. -/
def duplicateResponse (reason : DupReason) (url : String) : EvaluateResponse :=
  ⟨true, some reason, some url, none, zeroCost⟩

/-- Step 1 of `evaluate` (lines 85–99): Redis lookup of the base URL with
Postgres fallback; a durable hit repopulates the fast tier (write-back)
before being returned. -/
def lookupCachedBase (s : Settings) (env : Env) (campaign_id url : String) :
    Option FeatureRec × List Eff :=
  match env.get_features_by_url campaign_id url with
  | some rec => (some rec, [])
  | none =>
    if s.PG_ENABLED then
      match env.pg_get_by_url url with
      | some rec => (some rec, [Eff.redisRepopulate campaign_id rec.url])
      | none => (none, [])
    else (none, [])

/-- Body of the recency-window loop (lines 122–140): first candidate
passing the HASH gate or, failing that, the SEQ gate. -/
def findGateDup (s : Settings) (base_fp : List Bool)
    (base_seq : List (List Bool)) : List FeatureRec → Option (DupReason × String)
  | [] => none
  | cand :: rest =>
    if similarity_percent (some base_fp) (some cand.phash64) ≥ s.HASH_DUP_THRESHOLD then
      some (.HASH, cand.url)
    else if sequence_match_percent base_seq cand.seq_sig 5 2 ≥ s.SEQ_DUP_THRESHOLD then
      some (.SEQ, cand.url)
    else findGateDup s base_fp base_seq rest

/-- The per-request memoized base-video artifacts. -/
structure BaseState where
  base_fp : Option (List Bool)
  base_seq : Option (List (List Bool))
  base_path : Option String
  frames_b64 : List String
  transcript_text : Option String

/-- The ensure-computed block repeated at lines 155–171 and 194–209: when
base fingerprints are missing, download the base at most once (fatal on
failure), fingerprint it, and extract keyframes plus the optional
transcript. -/
def ensureBase (s : Settings) (env : Env) (video_url : String)
    (st : BaseState) : Except String BaseState :=
  if st.base_fp.isNone || st.base_seq.isNone then
    match (match st.base_path with
           | some p => some p
           | none => env.descargar_video video_url) with
    | none => .error "No se pudo descargar el video base."
    | some path =>
      let transcript :=
        if s.AUDIO_ASR_ENABLED then
          match env.extract_transcript path with
          | some t => t
          | none => st.transcript_text
        else st.transcript_text
      .ok ⟨env.video_fingerprint path, some (env.frame_hash_sequence path),
           some path, env.uniform_keyframes path, transcript⟩
  else .ok st

/-- Outcome of the explicit-candidate loop. -/
inductive DedupeOut
  | dup (resp : EvaluateResponse)
  | fatal (msg : String)
  | cont (st : BaseState)

/-- Step 1.b of `evaluate` (lines 143–234): iterate caller-supplied
candidate URLs.  A textual URL match is an immediate `URL` duplicate;
cached candidates are gated directly; uncached candidates are downloaded
(failure skips the candidate) and gated on freshly computed features. -/
def dedupeCandidates (s : Settings) (env : Env)
    (campaign_id video_url : String) (st : BaseState) :
    List String → DedupeOut
  | [] => .cont st
  | cand_url :: rest =>
    if cand_url == video_url then
      .dup (duplicateResponse .URL cand_url)
    else
      match env.get_features_by_url campaign_id cand_url with
      | some cached_cand =>
        match ensureBase s env video_url st with
        | .error e => .fatal e
        | .ok st' =>
          if similarity_percent st'.base_fp (some cached_cand.phash64) ≥ s.HASH_DUP_THRESHOLD then
            .dup (duplicateResponse .HASH cached_cand.url)
          else if sequence_match_percent (st'.base_seq.getD []) cached_cand.seq_sig 5 2 ≥ s.SEQ_DUP_THRESHOLD then
            .dup (duplicateResponse .SEQ cached_cand.url)
          else dedupeCandidates s env campaign_id video_url st' rest
      | none =>
        match ensureBase s env video_url st with
        | .error e => .fatal e
        | .ok st' =>
          match env.descargar_video cand_url with
          | none => dedupeCandidates s env campaign_id video_url st' rest
          | some cand_path =>
            if similarity_percent st'.base_fp (env.video_fingerprint cand_path) ≥ s.HASH_DUP_THRESHOLD then
              .dup (duplicateResponse .HASH cand_url)
            else if sequence_match_percent (st'.base_seq.getD []) (env.frame_hash_sequence cand_path) 5 2 ≥ s.SEQ_DUP_THRESHOLD then
              .dup (duplicateResponse .SEQ cand_url)
            else dedupeCandidates s env campaign_id video_url st' rest

/-- Step 3 of `evaluate` (lines 255–270): obtain keyframes (downloading the
base only if it was never downloaded), and run ASR only when no transcript
exists yet. -/
def prepFrames (s : Settings) (env : Env) (video_url : String)
    (st : BaseState) : Except String BaseState :=
  match (match st.base_path with
         | some p => some p
         | none => env.descargar_video video_url) with
  | none => .error "No se pudo descargar el video base."
  | some path =>
    let transcript :=
      if s.AUDIO_ASR_ENABLED && st.transcript_text.isNone then
        match env.extract_transcript path with
        | some t => t
        | none => st.transcript_text
      else st.transcript_text
    .ok { st with base_path := some path,
                  frames_b64 := env.uniform_keyframes path,
                  transcript_text := transcript }

/-- The fingerprint re-ensure inside the persistence step (lines 319–328);
its download failure carries a distinct fatal message. -/
def persistEnsure (_s : Settings) (env : Env) (video_url : String)
    (st : BaseState) : Except String BaseState :=
  if st.base_fp.isNone || st.base_seq.isNone then
    match (match st.base_path with
           | some p => some p
           | none => env.descargar_video video_url) with
    | none => .error "No se pudo descargar el video base para persistir huellas."
    | some path =>
      .ok { st with base_path := some path,
                    base_fp := env.video_fingerprint path,
                    base_seq := some (env.frame_hash_sequence path) }
  else .ok st

/-- The terminal degraded response (lines 242–251). -/
def degradedResponse : EvaluateResponse :=
  ⟨false, none, none,
   some ⟨false, 0, "Evaluación semántica degradada por presupuesto. Reintenta más tarde."⟩,
   ⟨0, 0, 0, true⟩⟩

/-- Step 2 of `evaluate` (lines 237–240): the guard object exists only
when `BUDGET_GUARDRAILS_ENABLED` (`guard = None` otherwise), and the
request degrades when its decision is not `allow`. -/
def budgetDegraded (s : Settings) (env : Env) (campaign_id : String) : Bool :=
  match (if s.BUDGET_GUARDRAILS_ENABLED then
           some ((⟨s.USD_DAY_CAP, s.MAX_LLM_CALLS, s.MAX_EMB_CALLS⟩ : BudgetGuardrails).decide
             (env.budget campaign_id) (2/100) 1 0)
         else none) with
  | some d => d != BudgetAction.allow
  | none => false

/-- Steps 2–6 of `evaluate` (lines 236–371): budget decision, keyframe
preparation, VLM summary, alignment judgment (with the conservative
fallback for unparseable judge output), budget commit, and the
approval-only persistence step.  `cached_base` is the step-1 lookup result
(always `none` on this path, since a hit returned earlier). -/
def afterDedupe (s : Settings) (env : Env) (req : EvaluateRequest)
    (cached_base : Option FeatureRec) (effs0 : List Eff) (st : BaseState) :
    Except String (EvaluateResponse × List Eff) :=
  if budgetDegraded s env req.campaign_id then .ok (degradedResponse, effs0)
  else
    match (if st.frames_b64.isEmpty then prepFrames s env req.video_url st else .ok st) with
    | .error e => .error e
    | .ok st2 =>
      match env.analyze_frames_free_narrative st2.frames_b64 st2.transcript_text with
      | none =>
        .ok (⟨false, none, none,
              some ⟨false, 0, "No se pudo generar el resumen del video."⟩,
              ⟨0, 0, 0, false⟩⟩, effs0 ++ [Eff.summarize])
      | some summary =>
        match env.comparar_descripcion_con_resumen_ia req.descripcion summary 70 with
        | none =>
          .ok (⟨false, none, none,
                some ⟨false, 0, "No se pudo comparar la descripción con el resumen."⟩,
                ⟨1, 0, 0, false⟩⟩, effs0 ++ [Eff.summarize, Eff.judge])
        | some cmp_raw =>
          let cmp :=
            match env.parse_judge cmp_raw with
            | some j => j
            | none => ⟨false, 0, "Respuesta IA inválida."⟩
          let effs2 := effs0 ++ [Eff.summarize, Eff.judge]
          let effs3 :=
            if s.BUDGET_GUARDRAILS_ENABLED then effs2 ++ [Eff.budgetCommit req.campaign_id]
            else effs2
          let finalResp : EvaluateResponse :=
            ⟨false, none, none, some ⟨cmp.aproved, cmp.match_percent, cmp.reasons⟩,
             ⟨1, 0, 0, false⟩⟩
          if cmp.aproved && cached_base.isNone then
            match persistEnsure s env req.video_url st2 with
            | .error e => .error e
            | .ok st3 =>
              if st3.base_fp.isSome && st3.base_seq.isSome then
                let effs4 := effs3 ++ [Eff.redisPersist req.campaign_id req.video_url]
                .ok (finalResp,
                     if s.PG_ENABLED then effs4 ++ [Eff.pgPersist req.video_url] else effs4)
              else .ok (finalResp, effs3)
          else .ok (finalResp, effs3)

/-- `EvaluateService.evaluate`.  The result pairs the HTTP response with
the trace of store writes and external calls; `.error` models the
`RuntimeError` raised when the base video cannot be downloaded. -/
def evaluate (s : Settings) (env : Env) (req : EvaluateRequest) :
    Except String (EvaluateResponse × List Eff) :=
  match lookupCachedBase s env req.campaign_id req.video_url with
  | (some _, effs) => .ok (duplicateResponse .URL req.video_url, effs)
  | (none, effs0) =>
    -- Lines 110–118: `base_fp`/`base_seq` start as `None`; the
    -- `if cached_base:` reassignment cannot fire on this branch because a
    -- truthy `cached_base` already returned at line 101.
    let st0 : BaseState := ⟨none, none, none, [], none⟩
    -- Lines 121–140 (1.a): recency-window dedupe, guarded by
    -- `base_fp is not None and base_seq is not None`.
    match (match st0.base_fp, st0.base_seq with
           | some fp, some sq =>
             findGateDup s fp sq (env.recent_candidates req.campaign_id)
           | _, _ => none) with
    | some rd => .ok (duplicateResponse rd.1 rd.2, effs0)
    | none =>
      match dedupeCandidates s env req.campaign_id req.video_url st0 req.candidates with
      | .dup resp => .ok (resp, effs0)
      | .fatal msg => .error msg
      | .cont st => afterDedupe s env req none effs0 st

/-! ## Theorems -/

/-- C4: `BudgetGuardrails.decide` returns `degrade` exactly when one of the
three projected counters (USD, LLM calls, embedding calls) would exceed its
cap, returns `allow` otherwise, and never modifies the counter store; in
particular with `usd_spent = 4.99`, `usd_day_cap = 5.0` and estimated cost
`0.02` it degrades, and with `usd_spent = 0.0` under the same caps it
allows. -/
theorem budget_decide_exactly_when_caps_exceeded
    (g : BudgetGuardrails) (store : String → BudgetSnapshot) (campaign_id : String)
    (est_usd need_llm need_emb : ℚ) :
    (g.decide (store campaign_id) est_usd need_llm need_emb = .degrade ↔
      ((store campaign_id).usd + est_usd > g.usd_day_cap ∨
       (store campaign_id).llm + need_llm > g.max_llm_calls ∨
       (store campaign_id).emb + need_emb > g.max_emb_calls)) ∧
    (g.decide (store campaign_id) est_usd need_llm need_emb = .allow ↔
      ¬((store campaign_id).usd + est_usd > g.usd_day_cap ∨
        (store campaign_id).llm + need_llm > g.max_llm_calls ∨
        (store campaign_id).emb + need_emb > g.max_emb_calls)) ∧
    (g.decideSt store campaign_id est_usd need_llm need_emb).2 = store ∧
    BudgetGuardrails.decide ⟨5, 50, 200⟩ ⟨499/100, 0, 0⟩ (2/100) 1 0 = .degrade ∧
    BudgetGuardrails.decide ⟨5, 50, 200⟩ ⟨0, 0, 0⟩ (2/100) 1 0 = .allow := by
  refine ⟨?_, ?_, rfl, by simp only [BudgetGuardrails.decide]; norm_num,
    by simp only [BudgetGuardrails.decide]; norm_num⟩ <;>
  · simp only [BudgetGuardrails.decide]
    split_ifs with h1 h2 h3 <;> simp_all

/-- C9: at Hamming distance 13 over 64 bits, `similarity_percent` is
exactly `round(100 × (1 − 13/64), 2) = 79.69`, which is below a 95%
threshold, so the HASH gate alone cannot flag the pair. -/
theorem hash_similarity_hamming13 (a b : List Bool)
    (ha : a.length = 64) (hb : b.length = 64) (hd : hamming a b = 13) :
    similarity_percent (some a) (some b) = 7969/100 ∧
    ((7969 : ℚ)/100 < 95 ∧
      ∀ s : Settings, s.HASH_DUP_THRESHOLD = 95 →
        ¬ similarity_percent (some a) (some b) ≥ s.HASH_DUP_THRESHOLD) := by
  have hlen : a.length = b.length := ha.trans hb.symm
  have hsim : similarity_percent (some a) (some b) = 7969/100 := by
    have h1 : similarity_percent (some a) (some b)
        = pyRound2 (100 * (1 - (hamming a b : ℚ) / (a.length : ℚ))) := by
      simp [similarity_percent, hlen]
    rw [h1, hd, ha]
    rw [show ((13:ℕ):ℚ) = 13 from by norm_num, show ((64:ℕ):ℚ) = 64 from by norm_num]
    have hx : (100 : ℚ) * (1 - (13:ℚ)/64) * 100 = 31875/4 := by norm_num
    have hfloor : ⌊((31875:ℚ)/4)⌋ = 7968 := by rw [Int.floor_eq_iff]; norm_num
    simp only [pyRound2, rhe, hx, hfloor]
    norm_num
  refine ⟨hsim, by norm_num, ?_⟩
  intro s hs
  rw [hsim, hs]
  norm_num

/-- C10: an absent fingerprint on either side makes `similarity_percent`
exactly 0, hence a video without a global fingerprint can never pass the
HASH gate when the threshold is positive. -/
theorem similarity_percent_absent (f : List Bool) (s : Settings)
    (hpos : 0 < s.HASH_DUP_THRESHOLD) :
    similarity_percent none (some f) = 0 ∧
    similarity_percent (some f) none = 0 ∧
    ¬ similarity_percent none (some f) ≥ s.HASH_DUP_THRESHOLD ∧
    ¬ similarity_percent (some f) none ≥ s.HASH_DUP_THRESHOLD := by
  refine ⟨rfl, rfl, ?_, ?_⟩ <;>
  · show ¬ (0 : ℚ) ≥ s.HASH_DUP_THRESHOLD
    exact fun h => absurd (lt_of_lt_of_le hpos h) (lt_irrefl 0)

/-- Witness for C10 at the default settings and the empty fingerprint. -/
theorem similarity_percent_absent_witness :
    (0 : ℚ) < ({} : Settings).HASH_DUP_THRESHOLD ∧
    (similarity_percent none (some ([] : List Bool)) = 0 ∧
     similarity_percent (some ([] : List Bool)) none = 0 ∧
     ¬ similarity_percent none (some ([] : List Bool)) ≥ ({} : Settings).HASH_DUP_THRESHOLD ∧
     ¬ similarity_percent (some ([] : List Bool)) none ≥ ({} : Settings).HASH_DUP_THRESHOLD) :=
  ⟨by norm_num [Settings.HASH_DUP_THRESHOLD],
   similarity_percent_absent [] {} (by norm_num [Settings.HASH_DUP_THRESHOLD])⟩

/-- Witness for C9 at two concrete 64-bit fingerprints differing in
exactly 13 bits. -/
theorem hash_similarity_hamming13_witness :
    ((List.replicate 64 false).length = 64 ∧
     (List.replicate 13 true ++ List.replicate 51 false).length = 64 ∧
     hamming (List.replicate 64 false) (List.replicate 13 true ++ List.replicate 51 false) = 13) ∧
    (similarity_percent (some (List.replicate 64 false))
        (some (List.replicate 13 true ++ List.replicate 51 false)) = 7969/100 ∧
     ((7969 : ℚ)/100 < 95 ∧
       ∀ s : Settings, s.HASH_DUP_THRESHOLD = 95 →
         ¬ similarity_percent (some (List.replicate 64 false))
             (some (List.replicate 13 true ++ List.replicate 51 false)) ≥ s.HASH_DUP_THRESHOLD)) :=
  ⟨⟨by decide, by decide, by decide⟩,
   hash_similarity_hamming13 _ _ (by decide) (by decide) (by decide)⟩

/-- C8 counterexample: with durations `a = 0.5`, `b = 0.2` the code divides
by `max(a, b) = 0.5` (Python's `d_cand or 1.0` only substitutes 1 when
`d_cand` is zero), giving `0.6`, while the claimed formula
`|a−b| / max(a,b,1)` gives `0.3`. -/
theorem duration_ratio_counterexample :
    duration_ratio (1/2) (1/5) = 3/5 ∧
    spec_duration_ratio (1/2) (1/5) = 3/10 ∧
    duration_ratio (1/2) (1/5) ≠ spec_duration_ratio (1/2) (1/5) := by
  have h1 : duration_ratio (1/2) (1/5) = 3/5 := by
    have hd : max ((1:ℚ)/2) (if (1:ℚ)/5 = 0 then 1 else (1:ℚ)/5) = 1/2 := by
      rw [if_neg (by norm_num)]
      norm_num
    have habs : |(1:ℚ)/2 - 1/5| = 3/10 := by rw [abs_of_pos] <;> norm_num
    have hfloor : ⌊((6000:ℚ))⌋ = 6000 := by rw [Int.floor_eq_iff]; norm_num
    simp only [duration_ratio, hd, habs, pyRound4, rhe]
    norm_num [hfloor]
  have h2 : spec_duration_ratio (1/2) (1/5) = 3/10 := by
    simp only [spec_duration_ratio]
    have habs : |(1:ℚ)/2 - 1/5| = 3/10 := by rw [abs_of_pos] <;> norm_num
    rw [habs, show max (max ((1:ℚ)/2) (1/5)) 1 = 1 by norm_num]
    norm_num
  exact ⟨h1, h2, by rw [h1, h2]; norm_num⟩

/-- C8 amended: `duration_ratio a b` equals the spec's
`|a−b| / max(a,b,1)` rounded to 4 decimals whenever `b = 0` or
`max(a,b) ≥ 1`; outside that region (both durations positive and under one
second) the code divides by `max(a,b)` instead. -/
theorem duration_ratio_matches_spec_on_guarded_region (a b : ℚ)
    (ha : 0 ≤ a) (h : b = 0 ∨ 1 ≤ max a b) :
    duration_ratio a b = pyRound4 (spec_duration_ratio a b) := by
  unfold duration_ratio spec_duration_ratio
  rcases h with h | h
  · subst h
    rw [if_pos rfl, max_eq_left ha]
  · by_cases hb0 : b = 0
    · subst hb0
      rw [if_pos rfl]
      rw [max_eq_left ha] at h ⊢
    · rw [if_neg hb0, max_eq_left h]

/-- Witness for C8's amended claim at `a = 3`, `b = 1`. -/
theorem duration_ratio_matches_spec_witness :
    ((0:ℚ) ≤ 3 ∧ ((1:ℚ) = 0 ∨ 1 ≤ max (3:ℚ) 1)) ∧
    duration_ratio 3 1 = pyRound4 (spec_duration_ratio 3 1) :=
  ⟨⟨by norm_num, Or.inr (by norm_num)⟩,
   duration_ratio_matches_spec_on_guarded_region 3 1 (by norm_num) (Or.inr (by norm_num))⟩

/-- After any insert for `u`, the table holds a row whose url is `u`. -/
lemma pg_save_has_url (table : List PgRow) (v c u : String) (fp : List Bool)
    (sq : List (List Bool)) (d : ℚ) :
    (pg_save_video_features table v c u fp sq d).any (fun r => r.url == u) = true := by
  by_cases hc : table.any (fun r => r.url == u) = true
  · simp [pg_save_video_features, hc]
  · simp [pg_save_video_features, hc, List.any_append]

/-- `ON CONFLICT (url) DO NOTHING`: inserting into a table already holding
the url leaves the table unchanged. -/
lemma pg_save_noop_of_has_url (table : List PgRow) (v c u : String)
    (fp : List Bool) (sq : List (List Bool)) (d : ℚ)
    (hc : table.any (fun r => r.url == u) = true) :
    pg_save_video_features table v c u fp sq d = table := by
  simp [pg_save_video_features, hc]

/-- C3: the durable insert is idempotent per URL — a second insert for the
same URL is a no-op (the table, including the row written by the first
insert, is unchanged), and starting from a table without that URL the first
insert leaves exactly one row for it. -/
theorem pg_save_video_features_idempotent (table : List PgRow)
    (v1 c1 v2 c2 u : String) (fp1 fp2 : List Bool)
    (sq1 sq2 : List (List Bool)) (d1 d2 : ℚ) :
    pg_save_video_features (pg_save_video_features table v1 c1 u fp1 sq1 d1)
        v2 c2 u fp2 sq2 d2
      = pg_save_video_features table v1 c1 u fp1 sq1 d1 ∧
    ((∀ r ∈ table, r.url ≠ u) →
      pg_save_video_features table v1 c1 u fp1 sq1 d1
        = table ++ [{ video_id := v1, campaign_id := c1, url := u,
                      phash64 := pack_phash64 fp1,
                      seq_sig := pack_bool_bits sq1,
                      seq_rows := sq1.length,
                      seq_cols := (sq1.headD []).length,
                      duration_s := d1 }] ∧
      ((pg_save_video_features table v1 c1 u fp1 sq1 d1).filter
          (fun r => r.url == u)).length = 1) := by
  constructor
  · exact pg_save_noop_of_has_url _ v2 c2 u fp2 sq2 d2
      (pg_save_has_url table v1 c1 u fp1 sq1 d1)
  · intro hfresh
    have hc : table.any (fun r => r.url == u) = false := by
      simp only [List.any_eq_false]
      intro r hr
      simpa using hfresh r hr
    have happ : pg_save_video_features table v1 c1 u fp1 sq1 d1
        = table ++ [{ video_id := v1, campaign_id := c1, url := u,
                      phash64 := pack_phash64 fp1,
                      seq_sig := pack_bool_bits sq1,
                      seq_rows := sq1.length,
                      seq_cols := (sq1.headD []).length,
                      duration_s := d1 }] := by
      simp [pg_save_video_features, hc]
    refine ⟨happ, ?_⟩
    rw [happ, List.filter_append]
    have h1 : table.filter (fun r => r.url == u) = [] := by
      rw [List.filter_eq_nil_iff]
      intro r hr
      simpa using hfresh r hr
    rw [h1]
    simp

/-- Witness for C3: two inserts for the same URL into the empty table. -/
theorem pg_save_video_features_idempotent_witness :
    (∀ r ∈ ([] : List PgRow), r.url ≠ "u") ∧
    (pg_save_video_features (pg_save_video_features [] "v1" "c1" "u" [true] [[true]] 1)
        "v2" "c2" "u" [false] [[false]] 2
      = pg_save_video_features [] "v1" "c1" "u" [true] [[true]] 1 ∧
     (pg_save_video_features [] "v1" "c1" "u" [true] [[true]] 1
        = [] ++ [{ video_id := "v1", campaign_id := "c1", url := "u",
                   phash64 := pack_phash64 [true],
                   seq_sig := pack_bool_bits [[true]],
                   seq_rows := [[true]].length,
                   seq_cols := ([[true]].headD []).length,
                   duration_s := 1 }] ∧
      ((pg_save_video_features [] "v1" "c1" "u" [true] [[true]] 1).filter
          (fun r => r.url == "u")).length = 1)) := by
  have h := pg_save_video_features_idempotent [] "v1" "c1" "v2" "c2" "u"
    [true] [false] [[true]] [[false]] 1 2
  exact ⟨by simp, h.1, h.2 (by simp)⟩

/-- One cleanup step for campaign `c` keeps every feature row of any other
campaign `cid`. -/
lemma cleanupCampaign_filter_other_features (st : CleanerState) (c cid : String)
    (h : c ≠ cid) :
    (cleanupCampaign st c).features.filter (fun r => r.campaign_id == cid)
      = st.features.filter (fun r => r.campaign_id == cid) := by
  simp only [cleanupCampaign, pg_delete_videos_by_campaign]
  rw [List.filter_comm]
  apply List.filter_eq_self.mpr
  intro a ha
  have hcid : a.campaign_id = cid := by simpa using (List.mem_filter.mp ha).2
  simp [hcid, bne_iff_ne, Ne.symm h]

/-- One cleanup step for campaign `c` keeps any other campaign's retention
row. -/
lemma cleanupCampaign_filter_other_retention (st : CleanerState) (c cid : String)
    (h : c ≠ cid) :
    (cleanupCampaign st c).retention.filter (fun r => r.campaign_id == cid)
      = st.retention.filter (fun r => r.campaign_id == cid) := by
  simp only [cleanupCampaign, pg_delete_campaign_retention]
  rw [List.filter_comm]
  apply List.filter_eq_self.mpr
  intro a ha
  have hcid : a.campaign_id = cid := by simpa using (List.mem_filter.mp ha).2
  simp [hcid, bne_iff_ne, Ne.symm h]

/-- One cleanup step for campaign `c` removes all of `c`'s feature rows. -/
lemma cleanupCampaign_filter_self_features (st : CleanerState) (c : String) :
    (cleanupCampaign st c).features.filter (fun r => r.campaign_id == c) = [] := by
  simp only [cleanupCampaign, pg_delete_videos_by_campaign]
  rw [List.filter_comm, List.filter_eq_nil_iff]
  intro a ha
  have hcid : a.campaign_id = c := by simpa using (List.mem_filter.mp ha).2
  simp [hcid]

/-- One cleanup step for campaign `c` removes `c`'s retention row. -/
lemma cleanupCampaign_filter_self_retention (st : CleanerState) (c : String) :
    (cleanupCampaign st c).retention.filter (fun r => r.campaign_id == c) = [] := by
  simp only [cleanupCampaign, pg_delete_campaign_retention]
  rw [List.filter_comm, List.filter_eq_nil_iff]
  intro a ha
  have hcid : a.campaign_id = c := by simpa using (List.mem_filter.mp ha).2
  simp [hcid]

/-- A campaign not in the processed list keeps all its rows across the
sweep's fold. -/
lemma foldl_cleanup_preserves (cids : List String) (st : CleanerState)
    (cid : String) (h : cid ∉ cids) :
    ((cids.foldl cleanupCampaign st).features.filter (fun r => r.campaign_id == cid)
       = st.features.filter (fun r => r.campaign_id == cid)) ∧
    ((cids.foldl cleanupCampaign st).retention.filter (fun r => r.campaign_id == cid)
       = st.retention.filter (fun r => r.campaign_id == cid)) := by
  induction cids generalizing st with
  | nil => exact ⟨rfl, rfl⟩
  | cons c rest ih =>
    have hc : c ≠ cid := fun hh => h (hh ▸ List.mem_cons_self c rest)
    have hrest : cid ∉ rest := fun hh => h (List.mem_cons_of_mem _ hh)
    rw [List.foldl_cons]
    obtain ⟨h1, h2⟩ := ih (cleanupCampaign st c) hrest
    exact ⟨h1.trans (cleanupCampaign_filter_other_features st c cid hc),
           h2.trans (cleanupCampaign_filter_other_retention st c cid hc)⟩

/-- Once a campaign has no rows left, no later cleanup step resurrects
them. -/
lemma foldl_cleanup_preserves_empty (cids : List String) (st : CleanerState)
    (cid : String)
    (hf : st.features.filter (fun r => r.campaign_id == cid) = [])
    (hr : st.retention.filter (fun r => r.campaign_id == cid) = []) :
    ((cids.foldl cleanupCampaign st).features.filter (fun r => r.campaign_id == cid) = []) ∧
    ((cids.foldl cleanupCampaign st).retention.filter (fun r => r.campaign_id == cid) = []) := by
  induction cids generalizing st with
  | nil => exact ⟨hf, hr⟩
  | cons c rest ih =>
    rw [List.foldl_cons]
    apply ih
    · simp only [cleanupCampaign, pg_delete_videos_by_campaign]
      rw [List.filter_comm, hf, List.filter_nil]
    · simp only [cleanupCampaign, pg_delete_campaign_retention]
      rw [List.filter_comm, hr, List.filter_nil]

/-- Every campaign in the processed list ends the fold with no feature rows
and no retention row. -/
lemma foldl_cleanup_removes (cids : List String) (st : CleanerState)
    (cid : String) (h : cid ∈ cids) :
    ((cids.foldl cleanupCampaign st).features.filter (fun r => r.campaign_id == cid) = []) ∧
    ((cids.foldl cleanupCampaign st).retention.filter (fun r => r.campaign_id == cid) = []) := by
  induction cids generalizing st with
  | nil => cases h
  | cons c rest ih =>
    rw [List.foldl_cons]
    by_cases hc : cid ∈ rest
    · exact ih (cleanupCampaign st c) hc
    · have hcc : c = cid := by
        rcases List.mem_cons.mp h with h1 | h1
        · exact h1.symm
        · exact absurd h1 hc
      subst hcc
      exact foldl_cleanup_preserves_empty rest (cleanupCampaign st c) c
        (cleanupCampaign_filter_self_features st c)
        (cleanupCampaign_filter_self_retention st c)

/-- C7: a sweep at `today` deletes every feature row and the retention
marker of a campaign whose `end_date` lies in the past, and leaves the
feature rows and retention marker of a campaign whose `end_date` lies in
the future exactly as they were. -/
theorem retention_sweep_deletes_expired_preserves_future
    (today : ℤ) (st : CleanerState) (cidP cidF : String)
    (hP : ∃ r ∈ st.retention, r.campaign_id = cidP ∧ r.end_date < today)
    (hF : ∀ r ∈ st.retention, r.campaign_id = cidF → today < r.end_date) :
    ((run_once today st).features.filter (fun r => r.campaign_id == cidP) = [] ∧
     (run_once today st).retention.filter (fun r => r.campaign_id == cidP) = []) ∧
    ((run_once today st).features.filter (fun r => r.campaign_id == cidF)
       = st.features.filter (fun r => r.campaign_id == cidF) ∧
     (run_once today st).retention.filter (fun r => r.campaign_id == cidF)
       = st.retention.filter (fun r => r.campaign_id == cidF)) := by
  have hmemP : cidP ∈ pg_expired_campaign_ids today st.retention := by
    obtain ⟨r, hr, hcid, hend⟩ := hP
    simp only [pg_expired_campaign_ids, List.mem_map, List.mem_filter]
    exact ⟨r, ⟨hr, by simpa using le_of_lt hend⟩, hcid⟩
  have hmemF : cidF ∉ pg_expired_campaign_ids today st.retention := by
    intro hmem
    simp only [pg_expired_campaign_ids, List.mem_map, List.mem_filter] at hmem
    obtain ⟨r, ⟨hr, hend⟩, hcid⟩ := hmem
    have h1 := hF r hr hcid
    have h2 : r.end_date ≤ today := by simpa using hend
    omega
  have hne : (pg_expired_campaign_ids today st.retention).isEmpty = false := by
    have : pg_expired_campaign_ids today st.retention ≠ [] :=
      List.ne_nil_of_mem hmemP
    simpa [List.isEmpty_iff] using this
  simp only [run_once, hne, Bool.false_eq_true, if_false]
  exact ⟨foldl_cleanup_removes _ st cidP hmemP,
         foldl_cleanup_preserves _ st cidF hmemF⟩

/-- Witness for C7: one expired campaign (`end_date` yesterday) with one
row, one future campaign with one row. -/
theorem retention_sweep_witness :
    ((∃ r ∈ [RetRow.mk "past" 0, RetRow.mk "future" 2],
        r.campaign_id = "past" ∧ r.end_date < 1) ∧
     (∀ r ∈ [RetRow.mk "past" 0, RetRow.mk "future" 2],
        r.campaign_id = "future" → 1 < r.end_date)) ∧
    (((run_once 1 ⟨[⟨"vp", "past", "u1", [], [], 0, 0, 0⟩,
                    ⟨"vf", "future", "u2", [], [], 0, 0, 0⟩],
                   [⟨"past", 0⟩, ⟨"future", 2⟩], []⟩).features.filter
        (fun r => r.campaign_id == "past") = [] ∧
      ((run_once 1 ⟨[⟨"vp", "past", "u1", [], [], 0, 0, 0⟩,
                     ⟨"vf", "future", "u2", [], [], 0, 0, 0⟩],
                    [⟨"past", 0⟩, ⟨"future", 2⟩], []⟩).retention.filter
        (fun r => r.campaign_id == "past") = [])) ∧
     ((run_once 1 ⟨[⟨"vp", "past", "u1", [], [], 0, 0, 0⟩,
                    ⟨"vf", "future", "u2", [], [], 0, 0, 0⟩],
                   [⟨"past", 0⟩, ⟨"future", 2⟩], []⟩).features.filter
        (fun r => r.campaign_id == "future")
        = ([⟨"vp", "past", "u1", [], [], 0, 0, 0⟩,
            ⟨"vf", "future", "u2", [], [], 0, 0, 0⟩] : List PgRow).filter
            (fun r => r.campaign_id == "future") ∧
      (run_once 1 ⟨[⟨"vp", "past", "u1", [], [], 0, 0, 0⟩,
                    ⟨"vf", "future", "u2", [], [], 0, 0, 0⟩],
                   [⟨"past", 0⟩, ⟨"future", 2⟩], []⟩).retention.filter
        (fun r => r.campaign_id == "future")
        = ([⟨"past", 0⟩, ⟨"future", 2⟩] : List RetRow).filter
            (fun r => r.campaign_id == "future"))) :=
  ⟨⟨⟨⟨"past", 0⟩, by simp, rfl, by norm_num⟩,
    by
      intro r hr hcid
      rcases List.mem_cons.mp hr with h | h
      · rw [h] at hcid; simp at hcid
      · rcases List.mem_cons.mp h with h2 | h2
        · rw [h2]; norm_num
        · cases h2⟩,
   retention_sweep_deletes_expired_preserves_future 1 _ "past" "future"
     ⟨⟨"past", 0⟩, by simp, rfl, by norm_num⟩
     (by
       intro r hr hcid
       rcases List.mem_cons.mp hr with h | h
       · rw [h] at hcid; simp at hcid
       · rcases List.mem_cons.mp h with h2 | h2
         · rw [h2]; norm_num
         · cases h2)⟩

/-- A vector never differs from itself. -/
lemma hamming_self (l : List Bool) : hamming l l = 0 := by
  unfold hamming
  induction l with
  | nil => rfl
  | cons a t ih => simpa [List.zipWith] using ih

/-- `rhe` is the identity on integers. -/
lemma rhe_intCast (n : ℤ) : rhe (n : ℚ) = n := by
  norm_num [rhe, Int.floor_intCast]

/-- `round(100.0, 2) = 100.0`. -/
lemma pyRound2_hundred : pyRound2 100 = 100 := by
  unfold pyRound2
  rw [show ((100:ℚ) * 100) = ((10000:ℤ):ℚ) by norm_num, rhe_intCast]
  norm_num

/-- Self-similarity is exactly 100%. -/
lemma similarity_percent_self (l : List Bool) :
    similarity_percent (some l) (some l) = 100 := by
  simp only [similarity_percent, ne_eq, not_true_eq_false, if_false, hamming_self,
    Nat.cast_zero, zero_div, sub_zero, mul_one]
  exact pyRound2_hundred

/-- The 64-bit fingerprint every video hashes to in the C1 scenario. -/
def fpOnes : List Bool := List.replicate 64 true

/-- A 3-frame sequence fingerprint of all-ones frames. -/
def seqOnes : List (List Bool) := List.replicate 3 (List.replicate 64 true)

/-- The record sitting in the fast tier's recency window in the C1
scenario: byte-identical fingerprints to the base video's. -/
def recentRec : FeatureRec := ⟨"vid-r", "https://t/recent", fpOnes, seqOnes, 10⟩

/-- C1 scenario environment: the base URL is cached in neither tier, the
per-campaign recency window holds `recentRec`, and fingerprinting the
downloaded base yields exactly `recentRec`'s fingerprints. -/
def envC1 : Env where
  get_features_by_url := fun _ _ => none
  recent_candidates := fun _ => [recentRec]
  pg_get_by_url := fun _ => none
  descargar_video := fun _ => some "base.mp4"
  video_fingerprint := fun _ => some fpOnes
  frame_hash_sequence := fun _ => seqOnes
  uniform_keyframes := fun _ => ["frame1"]
  extract_transcript := fun _ => none
  analyze_frames_free_narrative := fun _ _ => none
  comparar_descripcion_con_resumen_ia := fun _ _ _ => none
  parse_judge := fun _ => none
  budget := fun _ => ⟨0, 0, 0⟩
  get_duration_s := fun _ => 10

/-- C1 scenario request: no explicit candidates, base URL uncached. -/
def reqC1 : EvaluateRequest := ⟨"cmp-1", "https://t/base", [], "brief"⟩

/-- C1: for a base URL present in neither tier, `evaluate` never applies
the HASH/SEQ gates to the recency window.  Here the window holds a
candidate with fingerprints identical to the base video's — the gate body
itself (`findGateDup`) would flag it as a `HASH` duplicate — yet
`evaluate` skips the window (its guard needs cache-loaded base
fingerprints, impossible after a cache miss) and terminates with
`duplicated = false`. -/
theorem evaluate_never_consults_recency_window :
    findGateDup {} fpOnes seqOnes (envC1.recent_candidates "cmp-1")
      = some (.HASH, "https://t/recent") ∧
    evaluate {} envC1 reqC1 =
      .ok (⟨false, none, none,
            some ⟨false, 0, "No se pudo generar el resumen del video."⟩,
            ⟨0, 0, 0, false⟩⟩, [Eff.summarize]) := by
  constructor
  · have hsim : similarity_percent (some fpOnes) (some fpOnes) = 100 :=
      similarity_percent_self fpOnes
    simp only [envC1, findGateDup, recentRec]
    rw [if_pos (by rw [hsim]; norm_num [Settings.HASH_DUP_THRESHOLD])]
  · rfl

/-- C5: a `degrade` decision after a clean dedupe phase makes `evaluate`
return the terminal degraded result — `duplicated = false`, an explicitly
non-approved alignment, `degraded_path = true`, zero llm/embedding calls —
with an empty effect trace: neither the summarizer nor the judge is
invoked. -/
theorem degrade_short_circuits_semantic_path
    (s : Settings) (env : Env) (req : EvaluateRequest) (st : BaseState)
    (hG : s.BUDGET_GUARDRAILS_ENABLED = true)
    (hLook : lookupCachedBase s env req.campaign_id req.video_url = (none, []))
    (hDedupe : dedupeCandidates s env req.campaign_id req.video_url
        ⟨none, none, none, [], none⟩ req.candidates = .cont st)
    (hDeg : (⟨s.USD_DAY_CAP, s.MAX_LLM_CALLS, s.MAX_EMB_CALLS⟩ : BudgetGuardrails).decide
        (env.budget req.campaign_id) (2/100) 1 0 ≠ .allow) :
    evaluate s env req = .ok (degradedResponse, []) ∧
    degradedResponse.duplicated = false ∧
    degradedResponse.alignment =
      some ⟨false, 0, "Evaluación semántica degradada por presupuesto. Reintenta más tarde."⟩ ∧
    degradedResponse.cost = ⟨0, 0, 0, true⟩ ∧
    Eff.summarize ∉ ([] : List Eff) ∧ Eff.judge ∉ ([] : List Eff) := by
  have hdeg : budgetDegraded s env req.campaign_id = true := by
    simp only [budgetDegraded, hG, if_true]
    exact bne_iff_ne.mpr hDeg
  refine ⟨?_, rfl, rfl, rfl, by simp, by simp⟩
  simp only [evaluate, hLook, hDedupe, afterDedupe, hdeg, if_true]

/-- C5 witness settings: guardrails enabled, default caps. -/
def sC5 : Settings := { BUDGET_GUARDRAILS_ENABLED := true }

/-- C5 witness environment: nothing cached, counters at `usd = 4.99`. -/
def envC5 : Env where
  get_features_by_url := fun _ _ => none
  recent_candidates := fun _ => []
  pg_get_by_url := fun _ => none
  descargar_video := fun _ => some "base.mp4"
  video_fingerprint := fun _ => none
  frame_hash_sequence := fun _ => []
  uniform_keyframes := fun _ => ["frame1"]
  extract_transcript := fun _ => none
  analyze_frames_free_narrative := fun _ _ => some "resumen"
  comparar_descripcion_con_resumen_ia := fun _ _ _ => some "raw"
  parse_judge := fun _ => some ⟨true, 90, "ok"⟩
  budget := fun _ => ⟨499/100, 0, 0⟩
  get_duration_s := fun _ => 10

/-- C5 witness request. -/
def reqC5 : EvaluateRequest := ⟨"cmp-5", "https://t/base5", [], "brief"⟩

/-- Witness for C5: with `usd_spent = 4.99` against a 5 USD cap the
request degrades without any external call. -/
theorem degrade_short_circuits_semantic_path_witness :
    (sC5.BUDGET_GUARDRAILS_ENABLED = true ∧
     lookupCachedBase sC5 envC5 reqC5.campaign_id reqC5.video_url = (none, []) ∧
     dedupeCandidates sC5 envC5 reqC5.campaign_id reqC5.video_url
       ⟨none, none, none, [], none⟩ reqC5.candidates = .cont ⟨none, none, none, [], none⟩ ∧
     (⟨sC5.USD_DAY_CAP, sC5.MAX_LLM_CALLS, sC5.MAX_EMB_CALLS⟩ : BudgetGuardrails).decide
       (envC5.budget reqC5.campaign_id) (2/100) 1 0 ≠ .allow) ∧
    (evaluate sC5 envC5 reqC5 = .ok (degradedResponse, []) ∧
     degradedResponse.duplicated = false ∧
     degradedResponse.alignment =
       some ⟨false, 0, "Evaluación semántica degradada por presupuesto. Reintenta más tarde."⟩ ∧
     degradedResponse.cost = ⟨0, 0, 0, true⟩ ∧
     Eff.summarize ∉ ([] : List Eff) ∧ Eff.judge ∉ ([] : List Eff)) := by
  have hD : (⟨sC5.USD_DAY_CAP, sC5.MAX_LLM_CALLS, sC5.MAX_EMB_CALLS⟩ : BudgetGuardrails).decide
      (envC5.budget reqC5.campaign_id) (2/100) 1 0 = .degrade := by
    simp only [BudgetGuardrails.decide, sC5, envC5, reqC5]
    norm_num
  have hDne : (⟨sC5.USD_DAY_CAP, sC5.MAX_LLM_CALLS, sC5.MAX_EMB_CALLS⟩ : BudgetGuardrails).decide
      (envC5.budget reqC5.campaign_id) (2/100) 1 0 ≠ .allow := by
    rw [hD]; exact fun h => by cases h
  exact ⟨⟨rfl, rfl, rfl, hDne⟩,
    degrade_short_circuits_semantic_path sC5 envC5 reqC5
      ⟨none, none, none, [], none⟩ rfl rfl rfl hDne⟩

/-- C6: when the judge's raw response fails to parse, `evaluate` still
returns a well-formed non-duplicate `.ok` result (never an error) whose
alignment is the conservative fallback — non-approved, `match_percent = 0`
and the descriptive reason `"Respuesta IA inválida."`. -/
theorem malformed_judge_output_conservative_fallback
    (s : Settings) (env : Env) (req : EvaluateRequest) (st st2 : BaseState)
    (smry raw : String)
    (hLook : lookupCachedBase s env req.campaign_id req.video_url = (none, []))
    (hDedupe : dedupeCandidates s env req.campaign_id req.video_url
        ⟨none, none, none, [], none⟩ req.candidates = .cont st)
    (hAllow : s.BUDGET_GUARDRAILS_ENABLED = true →
      (⟨s.USD_DAY_CAP, s.MAX_LLM_CALLS, s.MAX_EMB_CALLS⟩ : BudgetGuardrails).decide
        (env.budget req.campaign_id) (2/100) 1 0 = .allow)
    (hPrep : (if st.frames_b64.isEmpty then prepFrames s env req.video_url st
              else .ok st) = .ok st2)
    (hSum : env.analyze_frames_free_narrative st2.frames_b64 st2.transcript_text = some smry)
    (hJudge : env.comparar_descripcion_con_resumen_ia req.descripcion smry 70 = some raw)
    (hParse : env.parse_judge raw = none) :
    evaluate s env req =
      .ok (⟨false, none, none, some ⟨false, 0, "Respuesta IA inválida."⟩, ⟨1, 0, 0, false⟩⟩,
           if s.BUDGET_GUARDRAILS_ENABLED
           then [Eff.summarize, Eff.judge, Eff.budgetCommit req.campaign_id]
           else [Eff.summarize, Eff.judge]) := by
  have hdeg : budgetDegraded s env req.campaign_id = false := by
    by_cases hB : s.BUDGET_GUARDRAILS_ENABLED = true
    · simp only [budgetDegraded, hB, if_true, hAllow hB, bne_self_eq_false]
    · have hB' : s.BUDGET_GUARDRAILS_ENABLED = false := by
        cases hq : s.BUDGET_GUARDRAILS_ENABLED
        · rfl
        · exact absurd hq hB
      simp [budgetDegraded, hB']
  simp only [evaluate, hLook, hDedupe, afterDedupe, hdeg, Bool.false_eq_true, if_false,
    hPrep, hSum, hJudge, hParse]
  simp

/-- C6 witness environment: summarizer and judge answer, but the judge's
output is unparseable JSON. -/
def envC6 : Env where
  get_features_by_url := fun _ _ => none
  recent_candidates := fun _ => []
  pg_get_by_url := fun _ => none
  descargar_video := fun _ => some "base.mp4"
  video_fingerprint := fun _ => some [true]
  frame_hash_sequence := fun _ => [[true]]
  uniform_keyframes := fun _ => ["frame1"]
  extract_transcript := fun _ => none
  analyze_frames_free_narrative := fun _ _ => some "resumen"
  comparar_descripcion_con_resumen_ia := fun _ _ _ => some "not-json"
  parse_judge := fun _ => none
  budget := fun _ => ⟨0, 0, 0⟩
  get_duration_s := fun _ => 10

/-- C6 witness request. -/
def reqC6 : EvaluateRequest := ⟨"cmp-6", "https://t/base6", [], "brief"⟩

/-- Witness for C6 with an unparseable judge response. -/
theorem malformed_judge_output_conservative_fallback_witness :
    (lookupCachedBase {} envC6 reqC6.campaign_id reqC6.video_url = (none, []) ∧
     dedupeCandidates {} envC6 reqC6.campaign_id reqC6.video_url
       ⟨none, none, none, [], none⟩ reqC6.candidates = .cont ⟨none, none, none, [], none⟩ ∧
     (if (⟨none, none, none, [], none⟩ : BaseState).frames_b64.isEmpty
      then prepFrames {} envC6 reqC6.video_url ⟨none, none, none, [], none⟩
      else .ok ⟨none, none, none, [], none⟩)
       = .ok ⟨none, none, some "base.mp4", ["frame1"], none⟩ ∧
     envC6.analyze_frames_free_narrative ["frame1"] none = some "resumen" ∧
     envC6.comparar_descripcion_con_resumen_ia reqC6.descripcion "resumen" 70 = some "not-json" ∧
     envC6.parse_judge "not-json" = none) ∧
    evaluate {} envC6 reqC6 =
      .ok (⟨false, none, none, some ⟨false, 0, "Respuesta IA inválida."⟩, ⟨1, 0, 0, false⟩⟩,
           if ({} : Settings).BUDGET_GUARDRAILS_ENABLED
           then [Eff.summarize, Eff.judge, Eff.budgetCommit reqC6.campaign_id]
           else [Eff.summarize, Eff.judge]) :=
  ⟨⟨rfl, rfl, rfl, rfl, rfl, rfl⟩,
   malformed_judge_output_conservative_fallback {} envC6 reqC6
     ⟨none, none, none, [], none⟩ ⟨none, none, some "base.mp4", ["frame1"], none⟩
     "resumen" "not-json" rfl rfl (fun h => nomatch h) rfl rfl rfl rfl⟩

/-! ## C2: store writes -/

/-- FeatureRecord writes to either tier, the fast-tier repopulation
included. -/
def isStoreWrite : Eff → Bool
  | .redisRepopulate _ _ => true
  | .redisPersist _ _ => true
  | .pgPersist _ => true
  | _ => false

/-- FeatureRecord writes performed by the persistence step (step 6) only. -/
def isPersistWrite : Eff → Bool
  | .redisPersist _ _ => true
  | .pgPersist _ => true
  | _ => false

/-- The durable record for the C2 scenario's base URL. -/
def cachedRec : FeatureRec := ⟨"vid-p", "https://t/base2", [true], [[true]], 10⟩

/-- C2 scenario environment: the base URL misses the fast tier but hits
the durable tier. -/
def envC2 : Env where
  get_features_by_url := fun _ _ => none
  recent_candidates := fun _ => []
  pg_get_by_url := fun u => if u == "https://t/base2" then some cachedRec else none
  descargar_video := fun _ => none
  video_fingerprint := fun _ => none
  frame_hash_sequence := fun _ => []
  uniform_keyframes := fun _ => []
  extract_transcript := fun _ => none
  analyze_frames_free_narrative := fun _ _ => none
  comparar_descripcion_con_resumen_ia := fun _ _ _ => none
  parse_judge := fun _ => none
  budget := fun _ => ⟨0, 0, 0⟩
  get_duration_s := fun _ => 0

/-- C2 scenario settings: the durable tier is configured. -/
def sC2 : Settings := { PG_ENABLED := true }

/-- C2 scenario request. -/
def reqC2 : EvaluateRequest := ⟨"cmp-2", "https://t/base2", [], "brief"⟩

/-- C2 counterexample: a request that ends as a `URL` duplicate via a
durable-tier hit does perform a store write — the fast-tier repopulation
(write-back) of the existing durable record — contradicting the claim that
duplicate-ending requests perform no store write. -/
theorem duplicate_request_performs_fast_tier_write :
    evaluate sC2 envC2 reqC2 =
      .ok (duplicateResponse .URL "https://t/base2",
           [Eff.redisRepopulate "cmp-2" "https://t/base2"]) ∧
    (duplicateResponse .URL "https://t/base2").duplicated = true ∧
    [Eff.redisRepopulate "cmp-2" "https://t/base2"].any isStoreWrite = true :=
  ⟨rfl, rfl, rfl⟩

/-- The step-1 lookup emits no persistence-step write (its only possible
effect is the fast-tier repopulation). -/
lemma lookupCachedBase_no_persist (s : Settings) (env : Env) (c u : String) :
    ∀ e ∈ (lookupCachedBase s env c u).2, isPersistWrite e = false := by
  intro e he
  cases hg : env.get_features_by_url c u with
  | some rec => simp [lookupCachedBase, hg] at he
  | none =>
    by_cases hpg : s.PG_ENABLED = true
    · cases hq : env.pg_get_by_url u with
      | some rec =>
        simp [lookupCachedBase, hg, hpg, hq] at he
        subst he
        rfl
      | none => simp [lookupCachedBase, hg, hpg, hq] at he
    · simp [lookupCachedBase, hg, hpg] at he

/-- A lookup miss emits no effect at all. -/
lemma lookupCachedBase_none_effs (s : Settings) (env : Env) (c u : String)
    (h : (lookupCachedBase s env c u).1 = none) :
    (lookupCachedBase s env c u).2 = [] := by
  cases hg : env.get_features_by_url c u with
  | some rec => simp [lookupCachedBase, hg] at h
  | none =>
    by_cases hpg : s.PG_ENABLED = true
    · cases hq : env.pg_get_by_url u with
      | some rec => simp [lookupCachedBase, hg, hpg, hq] at h
      | none => simp [lookupCachedBase, hg, hpg, hq]
    · simp [lookupCachedBase, hg, hpg]

/-- Reduction of `evaluate` on a URL-identity cache hit. -/
lemma evaluate_some_branch (s : Settings) (env : Env) (req : EvaluateRequest)
    (rec : FeatureRec) (effs0 : List Eff)
    (hL : lookupCachedBase s env req.campaign_id req.video_url = (some rec, effs0)) :
    evaluate s env req = .ok (duplicateResponse .URL req.video_url, effs0) := by
  simp only [evaluate, hL]

/-- Reduction of `evaluate` on a full cache miss: the recency-window guard
is vacuously false and control passes to the explicit-candidate loop. -/
lemma evaluate_none_branch (s : Settings) (env : Env) (req : EvaluateRequest)
    (effs0 : List Eff)
    (hL : lookupCachedBase s env req.campaign_id req.video_url = (none, effs0)) :
    evaluate s env req =
      match dedupeCandidates s env req.campaign_id req.video_url
          ⟨none, none, none, [], none⟩ req.candidates with
      | .dup resp => .ok (resp, effs0)
      | .fatal msg => .error msg
      | .cont st => afterDedupe s env req none effs0 st := by
  simp only [evaluate, hL]

/-- The summarize/judge/commit effects are not persistence writes. -/
lemma no_persist_in_call_effs (cid : String) (e : Eff)
    (h : e = Eff.summarize ∨ e = Eff.judge ∨ e = Eff.budgetCommit cid) :
    isPersistWrite e = false := by
  rcases h with h | h | h <;> subst h <;> rfl

/-- Steps 2–6 emit a persistence write only when the judgment is approved
and the lookup had missed; the accompanying response is then the approved,
non-duplicate, non-degraded terminal result. -/
lemma afterDedupe_persist (s : Settings) (env : Env) (req : EvaluateRequest)
    (cb : Option FeatureRec) (st : BaseState) (resp : EvaluateResponse)
    (effs : List Eff) (h : afterDedupe s env req cb [] st = .ok (resp, effs))
    (e : Eff) (hmem : e ∈ effs) (hp : isPersistWrite e = true) :
    resp.duplicated = false ∧ resp.cost.degraded_path = false ∧
    (∃ al, resp.alignment = some al ∧ al.aproved = true) ∧ cb = none := by
  simp only [afterDedupe] at h
  split at h
  · -- degraded: empty trace
    simp only [Except.ok.injEq, Prod.mk.injEq] at h
    obtain ⟨h1, h2⟩ := h
    subst h2
    exact absurd hmem (List.not_mem_nil e)
  · split at h
    · -- prepFrames failed: no .ok result
      exact Except.noConfusion h
    · split at h
      · -- summarizer failed: trace is [summarize]
        simp only [Except.ok.injEq, Prod.mk.injEq] at h
        obtain ⟨h1, h2⟩ := h
        subst h2
        simp only [List.nil_append, List.mem_singleton] at hmem
        subst hmem
        simp [isPersistWrite] at hp
      · split at h
        · -- judge returned nothing: trace is [summarize, judge]
          simp only [Except.ok.injEq, Prod.mk.injEq] at h
          obtain ⟨h1, h2⟩ := h
          subst h2
          simp only [List.nil_append, List.mem_cons, List.not_mem_nil, or_false] at hmem
          rcases hmem with h' | h' <;> subst h' <;> simp [isPersistWrite] at hp
        · -- judged: the persistence branch
          split at h
          case isTrue hcond =>
            rw [Bool.and_eq_true] at hcond
            obtain ⟨hap, hcb⟩ := hcond
            split at h
            · exact Except.noConfusion h
            · split at h
              case isTrue hsome =>
                simp only [Except.ok.injEq, Prod.mk.injEq] at h
                obtain ⟨h1, h2⟩ := h
                subst h1
                exact ⟨rfl, rfl, ⟨_, rfl, hap⟩, Option.isNone_iff_eq_none.mp hcb⟩
              case isFalse hsome =>
                simp only [Except.ok.injEq, Prod.mk.injEq] at h
                obtain ⟨h1, h2⟩ := h
                subst h2
                have hcall : e = Eff.summarize ∨ e = Eff.judge ∨
                    e = Eff.budgetCommit req.campaign_id := by
                  by_cases hB : s.BUDGET_GUARDRAILS_ENABLED = true <;>
                    simp [hB] at hmem <;> tauto
                have hne := no_persist_in_call_effs req.campaign_id e hcall
                simp [hne] at hp
          case isFalse hcond =>
            simp only [Except.ok.injEq, Prod.mk.injEq] at h
            obtain ⟨h1, h2⟩ := h
            subst h2
            have hcall : e = Eff.summarize ∨ e = Eff.judge ∨
                e = Eff.budgetCommit req.campaign_id := by
              by_cases hB : s.BUDGET_GUARDRAILS_ENABLED = true <;>
                simp [hB] at hmem <;> tauto
            have hne := no_persist_in_call_effs req.campaign_id e hcall
            simp [hne] at hp

/-- C2 amended: a persistence-step FeatureRecord write (fast or durable
tier) happens only on a request whose final judgment is approved, that is
not a duplicate, not degraded, and whose base URL missed both cache tiers;
duplicate, non-approved and degraded requests perform no persistence-step
write.  (The only other store write `evaluate` can perform is the
fast-tier repopulation of an already-durable record during the URL
lookup.) -/
theorem persist_write_only_on_approved_uncached
    (s : Settings) (env : Env) (req : EvaluateRequest)
    (resp : EvaluateResponse) (effs : List Eff)
    (hEval : evaluate s env req = .ok (resp, effs))
    (e : Eff) (hmem : e ∈ effs) (hp : isPersistWrite e = true) :
    resp.duplicated = false ∧ resp.cost.degraded_path = false ∧
    (∃ al, resp.alignment = some al ∧ al.aproved = true) ∧
    (lookupCachedBase s env req.campaign_id req.video_url).1 = none := by
  cases hL : lookupCachedBase s env req.campaign_id req.video_url with
  | mk cb effs0 =>
    cases cb with
    | some rec =>
      rw [evaluate_some_branch s env req rec effs0 hL] at hEval
      simp only [Except.ok.injEq, Prod.mk.injEq] at hEval
      obtain ⟨h1, h2⟩ := hEval
      subst h2
      have hnp := lookupCachedBase_no_persist s env req.campaign_id req.video_url e
        (by rw [hL]; exact hmem)
      simp [hnp] at hp
    | none =>
      have heffs0 : effs0 = [] := by
        have := lookupCachedBase_none_effs s env req.campaign_id req.video_url
          (by rw [hL])
        rw [hL] at this
        exact this
      subst heffs0
      rw [evaluate_none_branch s env req [] hL] at hEval
      split at hEval
      · -- duplicate found among explicit candidates: empty trace
        simp only [Except.ok.injEq, Prod.mk.injEq] at hEval
        obtain ⟨h1, h2⟩ := hEval
        subst h2
        exact absurd hmem (List.not_mem_nil e)
      · exact Except.noConfusion hEval
      · obtain ⟨a, b, c, _⟩ :=
          afterDedupe_persist s env req none _ resp effs hEval e hmem hp
        exact ⟨a, b, c, by simp [hL]⟩

/-- C2 witness environment: nothing cached, every collaborator succeeds,
and the judge approves. -/
def envC2w : Env where
  get_features_by_url := fun _ _ => none
  recent_candidates := fun _ => []
  pg_get_by_url := fun _ => none
  descargar_video := fun _ => some "base.mp4"
  video_fingerprint := fun _ => some [true]
  frame_hash_sequence := fun _ => [[true]]
  uniform_keyframes := fun _ => ["frame1"]
  extract_transcript := fun _ => none
  analyze_frames_free_narrative := fun _ _ => some "resumen"
  comparar_descripcion_con_resumen_ia := fun _ _ _ => some "raw"
  parse_judge := fun _ => some ⟨true, 90, "ok"⟩
  budget := fun _ => ⟨0, 0, 0⟩
  get_duration_s := fun _ => 10

/-- C2 witness request. -/
def reqC2w : EvaluateRequest := ⟨"cmp-2w", "https://t/base2w", [], "brief"⟩

/-- Witness for C2's amended claim: an approved, uncached request whose
trace ends in a fast-tier persist write. -/
theorem persist_write_only_on_approved_uncached_witness :
    (evaluate {} envC2w reqC2w =
       .ok (⟨false, none, none, some ⟨true, 90, "ok"⟩, ⟨1, 0, 0, false⟩⟩,
            [Eff.summarize, Eff.judge,
             Eff.redisPersist "cmp-2w" "https://t/base2w"]) ∧
     Eff.redisPersist "cmp-2w" "https://t/base2w" ∈
       [Eff.summarize, Eff.judge, Eff.redisPersist "cmp-2w" "https://t/base2w"] ∧
     isPersistWrite (Eff.redisPersist "cmp-2w" "https://t/base2w") = true) ∧
    ((⟨false, none, none, some ⟨true, 90, "ok"⟩,
       ⟨1, 0, 0, false⟩⟩ : EvaluateResponse).duplicated = false ∧
     (⟨false, none, none, some ⟨true, 90, "ok"⟩,
       ⟨1, 0, 0, false⟩⟩ : EvaluateResponse).cost.degraded_path = false ∧
     (∃ al, (⟨false, none, none, some ⟨true, 90, "ok"⟩,
       ⟨1, 0, 0, false⟩⟩ : EvaluateResponse).alignment = some al ∧ al.aproved = true) ∧
     (lookupCachedBase {} envC2w reqC2w.campaign_id reqC2w.video_url).1 = none) :=
  ⟨⟨rfl, by simp, rfl⟩,
   persist_write_only_on_approved_uncached {} envC2w reqC2w _ _ rfl
     (Eff.redisPersist "cmp-2w" "https://t/base2w") (by simp [reqC2w]) rfl⟩

end VideoEval
